import Mathlib

/-!
# Verification of `container-registry-rs` (rockslide)

A shallow embedding of the registry, auth, digest-parsing, deployment-hook
and published-container-set logic of the repository, together with theorems
settling the specification claims.

Conventions:
* Rust `&str`/`String` values are modelled as Lean `String` where only
  concatenation and equality matter, and as `List Char` where the code walks
  the string character by character; raw byte strings (`&[u8]`) are
  `List Nat` with each element `< 256`.
* Fallible Rust functions (`Result`) become `Except`; `Option` stays `Option`.
* The external `podman` binary is modelled as an oracle deciding the success
  of each engine operation; the hook functions return the exact trace of
  engine operations invoked.
-/

namespace Rockslide

/-! ## Core data model (`registry/storage`) -/

/-- `ImageLocation`: a `(repository, image)` pair (`storage::ImageLocation`). -/
structure ImageLocation where
  repository : String
  image : String
deriving DecidableEq, Repr

/-- `Reference`: either a mutable tag or an immutable digest
(`registry::storage::Reference`).  A digest is 32 raw bytes. -/
inductive Reference where
  | tag (t : String)
  | digest (d : List Nat)
deriving DecidableEq, Repr

/-- `ManifestReference`: fully qualified manifest identity. -/
structure ManifestReference where
  location : ImageLocation
  reference : Reference
deriving DecidableEq, Repr

/-! ## Auth providers (`auth.rs`) -/

/-- `auth::Unverified`: credentials as supplied by the client. -/
inductive Unverified where
  | usernameAndPassword (username : String) (password : String)
  | noCredentials
deriving DecidableEq, Repr

/-- `auth::ValidCredentials`: the opaque `Box<dyn Any>` carrier.  The built-in
providers store either `()` or the authenticated username, so we model the
carrier as this two-constructor inductive. -/
inductive ValidCredentials where
  | unitCreds
  | usernameCreds (u : String)
deriving DecidableEq, Repr

/-- `impl AuthProvider for bool`: `check_credentials` ignores the supplied
credentials entirely and answers from the boolean alone
(`auth.rs` lines 164–173). -/
def boolCheckCredentials (b : Bool) (_unverified : Unverified) :
    Option ValidCredentials :=
  if b then some ValidCredentials.unitCreds else none

/-- `impl AuthProvider for HashMap<String, Secret<String>>`
(`auth.rs` lines 185–206): look the username up, compare the password
(constant-time comparison is plain equality in the model). -/
def mapCheckCredentials (m : List (String × String)) (unverified : Unverified) :
    Option ValidCredentials :=
  match unverified with
  | Unverified.usernameAndPassword u p =>
      match m.lookup u with
      | some correct =>
          if correct = p then some (ValidCredentials.usernameCreds u) else none
      | none => none
  | Unverified.noCredentials => none

/-- `impl AuthProvider for Secret<String>` (`auth.rs` lines 258–277): master
password, the username is ignored. -/
def secretCheckCredentials (master : String) (unverified : Unverified) :
    Option ValidCredentials :=
  match unverified with
  | Unverified.usernameAndPassword _ p =>
      if p = master then some ValidCredentials.unitCreds else none
  | Unverified.noCredentials => none

/-! ## Digest parser (`registry.rs`, `impl FromStr for ImageDigest`) -/

/-- The UTF-8 bytes of the literal `"sha256:"`. -/
def sha256PrefixBytes : List Nat := [115, 104, 97, 50, 53, 54, 58]

/-- `ImageDigestParseError` (`registry.rs` lines 257–265). -/
inductive ImageDigestParseError where
  | wrongLength
  | wrongPrefix
  | hexDecodeError
deriving DecidableEq, Repr

/-- The value of one hex-digit byte, exactly as the `hex` crate's table:
`0-9`, `a-f` and `A-F` are accepted. -/
def hexVal (b : Nat) : Option Nat :=
  if 48 ≤ b ∧ b ≤ 57 then some (b - 48)
  else if 97 ≤ b ∧ b ≤ 102 then some (b - 87)
  else if 65 ≤ b ∧ b ≤ 70 then some (b - 55)
  else none

/-- Decode a hex byte string two digits at a time (`<[u8; N]>::from_hex`).
An odd trailing digit is a decode error. -/
def hexDecode : List Nat → Option (List Nat)
  | [] => some []
  | [_] => none
  | hi :: lo :: rest =>
      match hexVal hi, hexVal lo with
      | some h, some l =>
          match hexDecode rest with
          | some tail => some ((h * 16 + l) :: tail)
          | none => none
      | _, _ => none

/-- `ImageDigest::from_str` (`registry.rs` lines 267–293), over the raw UTF-8
bytes of the input: length must be `7 + 64`, the prefix must be `"sha256:"`,
and the remaining 64 bytes must hex-decode to the 32 digest bytes. -/
def imageDigestFromStr (raw : List Nat) : Except ImageDigestParseError (List Nat) :=
  if raw.length ≠ 7 + 64 then
    Except.error ImageDigestParseError.wrongLength
  else if ¬ sha256PrefixBytes.isPrefixOf raw then
    Except.error ImageDigestParseError.wrongPrefix
  else
    match hexDecode (raw.drop 7) with
    | some digest => Except.ok digest
    | none => Except.error ImageDigestParseError.hexDecodeError

/-- A byte that is a hex digit in *either* case (what the code accepts). -/
def isHexDigitByte (b : Nat) : Bool :=
  (48 ≤ b && b ≤ 57) || (97 ≤ b && b ≤ 102) || (65 ≤ b && b ≤ 70)

/-- A byte that is a *lowercase* hex digit (what the spec's words demand). -/
def isLowerHexByte (b : Nat) : Bool :=
  (48 ≤ b && b ≤ 57) || (97 ≤ b && b ≤ 102)

/-! ## HTTP layer (`registry.rs`) -/

/-- UTF-8 bytes of an ASCII string (all literals involved are ASCII). -/
def strBytes (s : String) : List Nat := s.data.map Char.toNat

/-- An HTTP response: status code, headers in emission order, body bytes. -/
structure HttpResponse where
  status : Nat
  headers : List (String × String)
  body : List Nat
deriving DecidableEq, Repr

/-- Axum's `IntoResponse` for a bare `StatusCode`: just the status, no
headers, empty body. -/
def statusResponse (code : Nat) : HttpResponse :=
  { status := code, headers := [], body := [] }

/-- `impl IntoResponse for AppError` (`registry.rs` lines 76–81): status 500
with the error message as the body. -/
def appErrorResponse (msg : String) : HttpResponse :=
  { status := 500, headers := [], body := strBytes msg }

/-- Whether a response carries a header with the given name. -/
def hasHeader (r : HttpResponse) (name : String) : Bool :=
  r.headers.any (fun h => h.1 = name)

/-- Lowercase hex encoding of one byte (two characters). -/
def byteToHexChars (b : Nat) : List Char :=
  [Nat.digitChar (b / 16 % 16), Nat.digitChar (b % 16)]

/-- Lowercase hex encoding of a byte string (`Display for storage::Digest`). -/
def hexEncode (bytes : List Nat) : String :=
  String.mk (bytes.foldr (fun b acc => byteToHexChars b ++ acc) [])

/-- `Display for ImageDigest` (`registry.rs` lines 295–299): `sha256:<hex>`. -/
def imageDigestDisplay (digest : List Nat) : String :=
  "sha256:" ++ hexEncode digest

/-- The challenge header `WWW-Authenticate: Basic realm="<realm>"` built by
`index_v2`. -/
def wwwAuthHeader (realm : String) : String × String :=
  ("WWW-Authenticate", "Basic realm=\"" ++ realm ++ "\"")

/-- `index_v2` (`registry.rs` lines 125–147).  The credentials extractor is
`Option<UnverifiedCredentials>` (`none` when the request carried none or the
header was malformed); the auth provider's boolean verdict is abstracted as
`check`.  A passing check yields `200` with the challenge header, everything
else falls through to `401` with the same challenge header. -/
def indexV2 (realm : String) (check : Unverified → Bool)
    (credentials : Option Unverified) : HttpResponse :=
  match credentials with
  | some creds =>
      if check creds then
        { status := 200, headers := [wwwAuthHeader realm], body := [] }
      else
        { status := 401, headers := [wwwAuthHeader realm], body := [] }
  | none => { status := 401, headers := [wwwAuthHeader realm], body := [] }

/-- `impl FromRequestParts for ValidCredentials` (`auth.rs` lines 89–106):
run the provider's `check_credentials` on the already-extracted credentials;
a `None` verdict rejects with `StatusCode::UNAUTHORIZED` (401). -/
def validCredentialsFromRequestParts
    (check : Unverified → Option ValidCredentials)
    (unverified : Unverified) : Except Nat ValidCredentials :=
  match check unverified with
  | some creds => Except.ok creds
  | none => Except.error 401

/-- An endpoint guarded by the `ValidCredentials` extractor: when extraction
rejects, axum turns the rejection `StatusCode` into the response. -/
def handleWithAuth (check : Unverified → Option ValidCredentials)
    (unverified : Unverified)
    (handler : ValidCredentials → HttpResponse) : HttpResponse :=
  match validCredentialsFromRequestParts check unverified with
  | Except.error code => statusResponse code
  | Except.ok creds => handler creds

/-- `blob_check` (`registry.rs` lines 149–168), parameterised by the storage
backend's `get_blob_metadata` (returning the blob size, `none` on a miss,
`Except.error` on an I/O failure propagated as `AppError`). -/
def blobCheck (getBlobMetadata : List Nat → Except String (Option Nat))
    (digest : List Nat) : HttpResponse :=
  match getBlobMetadata digest with
  | Except.error e => appErrorResponse e
  | Except.ok (some size) =>
      { status := 200,
        headers := [("Content-Length", toString size),
                    ("Docker-Content-Digest", imageDigestDisplay digest),
                    ("Content-Type", "application/octet-stream")],
        body := [] }
  | Except.ok none => { status := 404, headers := [], body := [] }

/-- `manifest_get` (`registry.rs` lines 390–409): a storage miss becomes
`anyhow!("no such manifest")`, i.e. an `AppError`; on a hit the manifest JSON
is parsed for its `mediaType` (serde is abstracted as `mediaTypeOf`, `none`
modelling a parse failure, which the `?` also turns into an `AppError`). -/
def manifestGet (getManifest : ManifestReference → Except String (Option (List Nat)))
    (mediaTypeOf : List Nat → Option String)
    (mref : ManifestReference) : HttpResponse :=
  match getManifest mref with
  | Except.error e => appErrorResponse e
  | Except.ok none => appErrorResponse "no such manifest"
  | Except.ok (some manifestJson) =>
      match mediaTypeOf manifestJson with
      | none => appErrorResponse "manifest parse error"
      | some mediaType =>
          { status := 200,
            headers := [("Content-Length", toString manifestJson.length),
                        ("Content-Type", mediaType)],
            body := manifestJson }

/-! ## Uploads (`registry.rs`) -/

/-- `UploadState` (`registry.rs` lines 191–196); the upload UUID is a string. -/
structure UploadState where
  location : ImageLocation
  completed : Option Nat
  upload : String
deriving DecidableEq, Repr

/-- `mk_upload_location` (`registry.rs` lines 185–189). -/
def mkUploadLocation (location : ImageLocation) (uuid : String) : String :=
  "/v2/" ++ location.repository ++ "/" ++ location.image ++ "/uploads/" ++ uuid

/-- `impl IntoResponse for UploadState` (`registry.rs` lines 198–218): with
`completed = Some n` respond `204 No Content` and `Range: 0-<n>`; without,
respond `202 Accepted` (the builder adds `Content-Length: 0` twice there,
exactly as the source does). -/
def uploadStateIntoResponse (s : UploadState) : HttpResponse :=
  match s.completed with
  | some completed =>
      { status := 204,
        headers := [("Location", mkUploadLocation s.location s.upload),
                    ("Content-Length", "0"),
                    ("Docker-Upload-UUID", s.upload),
                    ("Range", "0-" ++ toString completed)],
        body := [] }
  | none =>
      { status := 202,
        headers := [("Location", mkUploadLocation s.location s.upload),
                    ("Content-Length", "0"),
                    ("Docker-Upload-UUID", s.upload),
                    ("Content-Length", "0")],
        body := [] }

/-- `upload_add_chunk` (`registry.rs` lines 301–332): a request with a
`Range` header is rejected as an unsupported feature; otherwise the whole
body (a stream of chunks) is appended and `completed` is the total number of
body bytes written. -/
def uploadAddChunk (location : ImageLocation) (upload : String)
    (hasRangeHeader : Bool) (chunks : List (List Nat)) :
    Except String UploadState :=
  if hasRangeHeader then
    Except.error "unsupport feature: chunked uploads"
  else
    Except.ok { location := location,
                completed := some (chunks.map List.length).sum,
                upload := upload }

/-! ## Container-name convention (`main.rs`, `container_orchestrator.rs`) -/

/-- The managed-container name `rockslide-<repository>-<image>` built by the
upload hook (`main.rs` line 171, `container_orchestrator.rs` line 182). -/
def managedName (loc : ImageLocation) : String :=
  "rockslide-" ++ loc.repository ++ "-" ++ loc.image

/-- Rust `str::strip_prefix`, character by character. -/
def stripPrefixChars : List Char → List Char → Option (List Char)
  | [], l => some l
  | _ :: _, [] => none
  | p :: ps, c :: cs => if p = c then stripPrefixChars ps cs else none

/-- Rust `str::split_once(sep)`: split at the first occurrence of `sep`. -/
def splitOnceChar (sep : Char) : List Char → Option (List Char × List Char)
  | [] => none
  | c :: cs =>
      if c = sep then some ([], cs)
      else
        match splitOnceChar sep cs with
        | some (l, r) => some (c :: l, r)
        | none => none

/-- The reverse mapping of one container name
(`ContainerJson::image_location`, `main.rs` lines 105–118): strip the
`rockslide-` prefix, then split at the *first* remaining `-`. -/
def parseContainerName (name : List Char) : Option ImageLocation :=
  match stripPrefixChars "rockslide-".data name with
  | some subname =>
      match splitOnceChar '-' subname with
      | some (left, right) => some ⟨String.mk left, String.mk right⟩
      | none => none
  | none => none

/-- `ContainerJson::image_location` over the container's `names` list: the
first name that both strips and splits wins. -/
def imageLocationOfNames (names : List String) : Option ImageLocation :=
  names.findSome? (fun n => parseContainerName n.data)

/-! ## Deployment controller (`main.rs` hook, `container_orchestrator.rs`) -/

/-- One invocation of the external container engine, with the exact
arguments the controller passes. -/
inductive EngineOp where
  | rm (name : String) (force : Bool)
  | login (username password registryHost : String) (tlsVerify : Bool)
  | pull (imageUrl : String)
  | run (imageUrl name publish : String) (tlsVerify rmOnExit rmiOnExit : Bool)
      (env : List (String × String))
  | ps (all : Bool)
deriving DecidableEq, Repr

/-- The hook's configuration (`PodmanHook` / `ContainerOrchestrator` fields
used by the reconcile sequence): the registry's advertised local address and
its master credentials. -/
structure HookCtx where
  localAddr : String
  registryUsername : String
  registryPassword : String

/-- The image URL `<local_addr>/<repo>/<image>:prod` (`main.rs` lines
179–185). -/
def prodImageUrl (ctx : HookCtx) (loc : ImageLocation) : String :=
  ctx.localAddr ++ "/" ++ loc.repository ++ "/" ++ loc.image ++ ":prod"

/-- The external engine as a success oracle: one call, one verdict. -/
def podmanResult (ok : EngineOp → Bool) (op : EngineOp) : Except String Unit :=
  if ok op then Except.ok () else Except.error "podman failure"

/-- The always-succeeding engine. -/
def engineAllOk : EngineOp → Bool := fun _ => true

/-- `PodmanHook::on_manifest_uploaded` (`main.rs` lines 163–227) as a trace
of engine operations.  Only a `Tag("prod")` reference enters the reconcile
branch; each fallible step is wrapped in `try_quiet!`, whose `Err` arm logs
and early-returns `()` from the hook — modelled as `Except.ok` with the
operations invoked so far.  After a successful `run`, the hook republishes
the active set, which invokes `podman ps` (`fetch_running_containers`);
that failure too is swallowed by `try_quiet!`. -/
def mainOnManifestUploaded (ctx : HookCtx) (ok : EngineOp → Bool)
    (mref : ManifestReference) : Except String (List EngineOp) :=
  match mref.reference with
  | Reference.tag t =>
      if t = "prod" then
        let name := managedName mref.location
        let rmOp := EngineOp.rm name true
        match podmanResult ok rmOp with
        | Except.error _ => Except.ok [rmOp]
        | Except.ok _ =>
          let loginOp := EngineOp.login ctx.registryUsername ctx.registryPassword
            ctx.localAddr false
          match podmanResult ok loginOp with
          | Except.error _ => Except.ok [rmOp, loginOp]
          | Except.ok _ =>
            let pullOp := EngineOp.pull (prodImageUrl ctx mref.location)
            match podmanResult ok pullOp with
            | Except.error _ => Except.ok [rmOp, loginOp, pullOp]
            | Except.ok _ =>
              let runOp := EngineOp.run (prodImageUrl ctx mref.location) name
                "127.0.0.1::8000" false true true [("PORT", "8000")]
              match podmanResult ok runOp with
              | Except.error _ => Except.ok [rmOp, loginOp, pullOp, runOp]
              | Except.ok _ =>
                Except.ok [rmOp, loginOp, pullOp, runOp, EngineOp.ps false]
      else Except.ok []
  | Reference.digest _ => Except.ok []

/-- `ContainerOrchestrator::synchronize_container_state`
(`container_orchestrator.rs` lines 176–235): the same reconcile sequence,
without the republish step (which lives in the orchestrator's own hook). -/
def synchronizeContainerState (ctx : HookCtx) (ok : EngineOp → Bool)
    (mref : ManifestReference) : Except String (List EngineOp) :=
  match mref.reference with
  | Reference.tag t =>
      if t = "prod" then
        let name := managedName mref.location
        let rmOp := EngineOp.rm name true
        match podmanResult ok rmOp with
        | Except.error _ => Except.ok [rmOp]
        | Except.ok _ =>
          let loginOp := EngineOp.login ctx.registryUsername ctx.registryPassword
            ctx.localAddr false
          match podmanResult ok loginOp with
          | Except.error _ => Except.ok [rmOp, loginOp]
          | Except.ok _ =>
            let pullOp := EngineOp.pull (prodImageUrl ctx mref.location)
            match podmanResult ok pullOp with
            | Except.error _ => Except.ok [rmOp, loginOp, pullOp]
            | Except.ok _ =>
              let runOp := EngineOp.run (prodImageUrl ctx mref.location) name
                "127.0.0.1::8000" false true true [("PORT", "8000")]
              match podmanResult ok runOp with
              | Except.error _ => Except.ok [rmOp, loginOp, pullOp, runOp]
              | Except.ok _ => Except.ok [rmOp, loginOp, pullOp, runOp]
      else Except.ok []
  | Reference.digest _ => Except.ok []

/-- `ContainerOrchestrator::on_manifest_uploaded`
(`container_orchestrator.rs` lines 292–299): synchronize, then always
republish the active set (one `podman ps` invocation, failure swallowed). -/
def orchOnManifestUploaded (ctx : HookCtx) (ok : EngineOp → Bool)
    (mref : ManifestReference) : Except String (List EngineOp) :=
  match synchronizeContainerState ctx ok mref with
  | Except.ok ops => Except.ok (ops ++ [EngineOp.ps false])
  | Except.error e => Except.error e

/-- A sequence of independent hook invocations (`main.rs` hook), each with
its own engine behaviour. -/
def runHookSeq (ctx : HookCtx)
    (invocations : List ((EngineOp → Bool) × ManifestReference)) :
    List (Except String (List EngineOp)) :=
  invocations.map (fun p => mainOnManifestUploaded ctx p.1 p.2)

/-! ## Published container set (`main.rs` lines 75–161) -/

/-- `PortMapping` (`main.rs` lines 145–153). -/
structure PortMapping where
  hostIp : String
  containerPort : Nat
  hostPort : Nat
  range : Nat
  protocol : String
deriving DecidableEq, Repr

/-- Split a character list on a separator (all fields, including empty
ones). -/
def splitOnChar (sep : Char) : List Char → List (List Char)
  | [] => [[]]
  | c :: cs =>
      if c = sep then [] :: splitOnChar sep cs
      else
        match splitOnChar sep cs with
        | [] => [[c]]
        | p :: ps => (c :: p) :: ps

/-- A decimal digit byte. -/
def isDecDigit (c : Char) : Bool := 48 ≤ c.toNat && c.toNat ≤ 57

/-- One IPv4 octet, as Rust's `core::net` parser reads it: 1–3 decimal
digits, no leading zero (unless the octet is exactly `0`), value ≤ 255. -/
def octetValue (part : List Char) : Option Nat :=
  if part.isEmpty then none
  else if ¬ part.all isDecDigit then none
  else if 3 < part.length then none
  else if part.head? = some '0' ∧ 1 < part.length then none
  else
    let v := part.foldl (fun acc c => acc * 10 + (c.toNat - 48)) 0
    if v ≤ 255 then some v else none

/-- `Ipv4Addr::from_str`: exactly four octets separated by `.`, nothing
else.  (An IPv6 literal such as `"::1"` fails here.) -/
def parseIpv4 (s : String) : Option (Nat × Nat × Nat × Nat) :=
  match splitOnChar '.' s.data with
  | [p0, p1, p2, p3] =>
      match octetValue p0, octetValue p1, octetValue p2, octetValue p3 with
      | some a, some b, some c, some d => some (a, b, c, d)
      | _, _, _, _ => none
  | _ => none

/-- A socket address `(IPv4, port)`. -/
structure SockAddr where
  ip : Nat × Nat × Nat × Nat
  port : Nat
deriving DecidableEq, Repr

/-- `PortMapping::get_host_listening_addr` (`main.rs` lines 155–161):
parse `host_ip` as an `Ipv4Addr`; `None` when it does not parse. -/
def getHostListeningAddr (pm : PortMapping) : Option SockAddr :=
  match parseIpv4 pm.hostIp with
  | some ip => some { ip := ip, port := pm.hostPort }
  | none => none

/-- `ContainerJson` (`main.rs` lines 95–103). -/
structure ContainerJson where
  id : String
  names : List String
  ports : List PortMapping
deriving DecidableEq, Repr

/-- `ContainerJson::active_published_port` (`main.rs` lines 120–122):
only `ports.get(0)` is ever considered. -/
def activePublishedPort (c : ContainerJson) : Option PortMapping :=
  c.ports.get? 0

/-- `reverse_proxy::PublishedContainer` as constructed in `main.rs` line
128: host address plus image location. -/
structure PublishedContainer where
  hostAddr : SockAddr
  imageLocation : ImageLocation
deriving DecidableEq, Repr

/-- `ContainerJson::published_container` (`main.rs` lines 124–133). -/
def publishedContainer (c : ContainerJson) : Option PublishedContainer :=
  match imageLocationOfNames c.names with
  | none => none
  | some loc =>
      match activePublishedPort c with
      | none => none
      | some pm =>
          match getHostListeningAddr pm with
          | none => none
          | some addr => some { hostAddr := addr, imageLocation := loc }

/-- The published set handed to the reverse proxy
(`PodmanHook::updated_published_set`, `main.rs` lines 75–88):
`filter_map` over the running containers. -/
def publishedSet (containers : List ContainerJson) : List PublishedContainer :=
  containers.filterMap publishedContainer

/-- A concrete 71-byte digest string whose hex part is 64 uppercase `A`s
(byte 65): `"sha256:AAA…A"`. -/
def sampleUpperDigestStr : List Nat := sha256PrefixBytes ++ List.replicate 64 65

/-! ## Helper lemmas -/

theorem hexVal_isSome_iff (b : Nat) :
    (hexVal b).isSome = true ↔ isHexDigitByte b = true := by
  unfold hexVal isHexDigitByte
  split <;> rename_i h₁
  · simp [h₁.1, h₁.2]
  · split <;> rename_i h₂
    · simp [h₂.1, h₂.2]
    · split <;> rename_i h₃
      · simp [h₃.1, h₃.2]
      · simp only [Option.isSome_none, Bool.or_eq_true, Bool.and_eq_true,
          decide_eq_true_eq]
        constructor
        · intro hf; exact absurd hf (by simp)
        · intro hr
          exact absurd
            (by tauto :
              (48 ≤ b ∧ b ≤ 57) ∨ (97 ≤ b ∧ b ≤ 102) ∨ (65 ≤ b ∧ b ≤ 70))
            (by tauto)

theorem hexDecode_isSome_iff (l : List Nat) :
    l.length % 2 = 0 →
    ((hexDecode l).isSome = true ↔ (∀ b ∈ l, isHexDigitByte b = true)) := by
  induction l using hexDecode.induct with
  | case1 => intro _; simp [hexDecode]
  | case2 b => intro h; simp at h
  | case3 hi lo rest h l hlo hhi tail htail ih =>
      intro hlen
      have hr : rest.length % 2 = 0 := by
        simp only [List.length_cons] at hlen; omega
      have ihr := ih hr
      rw [htail] at ihr
      simp only [Option.isSome_some, true_iff] at ihr
      simp only [hexDecode, hhi, hlo, htail, Option.isSome_some, true_iff]
      intro b hb
      rcases hb with _ | ⟨_, hb⟩
      · exact (hexVal_isSome_iff hi).1 (by simp [hhi])
      · rcases hb with _ | ⟨_, hb⟩
        · exact (hexVal_isSome_iff lo).1 (by simp [hlo])
        · exact ihr b hb
  | case4 hi lo rest h l hlo hhi hnone ih =>
      intro hlen
      have hr : rest.length % 2 = 0 := by
        simp only [List.length_cons] at hlen; omega
      have ihr := ih hr
      rw [hnone] at ihr
      simp only [Option.isSome_none, Bool.false_eq_true, false_iff] at ihr
      simp only [hexDecode, hhi, hlo, hnone, Option.isSome_none,
        Bool.false_eq_true, false_iff]
      intro hall
      exact ihr (fun b hb => hall b (by simp [hb]))
  | case5 hi lo rest hfalse =>
      intro _
      have hor : hexVal hi = none ∨ hexVal lo = none := by
        cases hhi : hexVal hi with
        | none => exact Or.inl rfl
        | some h =>
            cases hlo : hexVal lo with
            | none => exact Or.inr rfl
            | some l => exact absurd (hfalse h l hhi hlo) (fun x => x)
      have hnone2 : hexDecode (hi :: lo :: rest) = none := by
        rcases hor with hn | hn
        · cases hlo2 : hexVal lo <;> simp [hexDecode, hn, hlo2]
        · cases hhi2 : hexVal hi <;> simp [hexDecode, hn, hhi2]
      rw [hnone2]
      simp only [Option.isSome_none, Bool.false_eq_true, false_iff]
      intro hall
      rcases hor with hn | hn
      · have hmem := hall hi (by simp)
        rw [← hexVal_isSome_iff] at hmem
        simp [hn] at hmem
      · have hmem := hall lo (by simp)
        rw [← hexVal_isSome_iff] at hmem
        simp [hn] at hmem

theorem stripPrefixChars_of_append (p rest : List Char) :
    stripPrefixChars p (p ++ rest) = some rest := by
  induction p with
  | nil => rfl
  | cons a ps ih => simp [stripPrefixChars, ih]

theorem splitOnceChar_of_append (sep : Char) (l r : List Char) (h : sep ∉ l) :
    splitOnceChar sep (l ++ sep :: r) = some (l, r) := by
  induction l with
  | nil => simp [splitOnceChar]
  | cons c cs ih =>
      simp only [List.mem_cons, not_or] at h
      have hc : ¬ c = sep := fun hcc => h.1 hcc.symm
      simp [splitOnceChar, hc, ih h.2]

theorem mainHook_prod_trace (ctx : HookCtx) (repo image : String) :
    mainOnManifestUploaded ctx engineAllOk
        ⟨⟨repo, image⟩, Reference.tag "prod"⟩ =
      Except.ok
        [EngineOp.rm (managedName ⟨repo, image⟩) true,
         EngineOp.login ctx.registryUsername ctx.registryPassword
           ctx.localAddr false,
         EngineOp.pull (prodImageUrl ctx ⟨repo, image⟩),
         EngineOp.run (prodImageUrl ctx ⟨repo, image⟩)
           (managedName ⟨repo, image⟩) "127.0.0.1::8000" false true true
           [("PORT", "8000")],
         EngineOp.ps false] := rfl

theorem mainHook_isOk (ctx : HookCtx) (ok : EngineOp → Bool)
    (mref : ManifestReference) :
    (mainOnManifestUploaded ctx ok mref).isOk = true := by
  unfold mainOnManifestUploaded
  rcases mref with ⟨loc, r⟩
  cases r with
  | digest d => rfl
  | tag t =>
      by_cases ht : t = "prod" <;>
        simp only [ht, if_true, if_false, reduceIte] <;>
        · first
          | rfl
          | (repeat' split) <;> rfl

theorem syncState_isOk (ctx : HookCtx) (ok : EngineOp → Bool)
    (mref : ManifestReference) :
    (synchronizeContainerState ctx ok mref).isOk = true := by
  unfold synchronizeContainerState
  rcases mref with ⟨loc, r⟩
  cases r with
  | digest d => rfl
  | tag t =>
      by_cases ht : t = "prod" <;>
        simp only [ht, if_true, if_false, reduceIte] <;>
        · first
          | rfl
          | (repeat' split) <;> rfl

theorem orchHook_isOk (ctx : HookCtx) (ok : EngineOp → Bool)
    (mref : ManifestReference) :
    (orchOnManifestUploaded ctx ok mref).isOk = true := by
  unfold orchOnManifestUploaded
  have := syncState_isOk ctx ok mref
  cases h : synchronizeContainerState ctx ok mref with
  | ok ops => rfl
  | error e => rw [h] at this; exact absurd this (by simp [Except.isOk, Except.toBool])

/-! ## Claims -/

/-- Claim C1: for a manifest upload whose reference is `Tag("prod")` at
`(repo, image)`, the hook invokes the engine as
`rm("rockslide-<repo>-<image>", force=true)`, then `login` with the
registry's master credentials against its local address, then
`pull("<local_addr>/<repo>/<image>:prod")`, then `run` with that name,
`tls_verify=false`, publish `127.0.0.1::8000` and env `PORT=8000`, in
exactly this order (the trace ends with the `ps` listing that republishes
the active container set, spec step 5); for a `Digest` reference or any
other tag, no container-engine operation is invoked at all. -/
theorem claim_C1_deploy_hook_trace (ctx : HookCtx) (repo image : String) :
    (mainOnManifestUploaded ctx engineAllOk
        ⟨⟨repo, image⟩, Reference.tag "prod"⟩ =
      Except.ok
        [EngineOp.rm (managedName ⟨repo, image⟩) true,
         EngineOp.login ctx.registryUsername ctx.registryPassword
           ctx.localAddr false,
         EngineOp.pull (prodImageUrl ctx ⟨repo, image⟩),
         EngineOp.run (prodImageUrl ctx ⟨repo, image⟩)
           (managedName ⟨repo, image⟩) "127.0.0.1::8000" false true true
           [("PORT", "8000")],
         EngineOp.ps false]) ∧
    ∀ (ok : EngineOp → Bool) (loc : ImageLocation) (r : Reference),
      r ≠ Reference.tag "prod" →
        mainOnManifestUploaded ctx ok ⟨loc, r⟩ = Except.ok [] := by
  refine ⟨mainHook_prod_trace ctx repo image, ?_⟩
  intro ok loc r hr
  cases r with
  | digest d => rfl
  | tag t =>
      have ht : ¬ t = "prod" := by
        intro h; exact hr (by rw [h])
      simp [mainOnManifestUploaded, ht]

/-- Witness for C1: a non-`prod` tag upload invokes no engine operation. -/
theorem claim_C1_deploy_hook_trace_witness :
    mainOnManifestUploaded ⟨"127.0.0.1:3000", "rockslide-podman", "hunter2"⟩
        engineAllOk ⟨⟨"lib", "hello"⟩, Reference.tag "latest"⟩ =
      Except.ok [] :=
  (claim_C1_deploy_hook_trace ⟨"127.0.0.1:3000", "rockslide-podman", "hunter2"⟩
      "lib" "hello").2 engineAllOk ⟨"lib", "hello"⟩ (Reference.tag "latest")
    (by decide)

/-- Claim C2 (code bug): the claim — and the module's own documentation,
which says the `bool` backend "will not accept missing credentials" — require
every built-in provider to return `None` on `NoCredentials`, but the
allow-all provider (`true`) ignores the credentials and returns `Some`; the
other three providers do return `None`. -/
theorem claim_C2_no_credentials_eval :
    boolCheckCredentials true Unverified.noCredentials =
      some ValidCredentials.unitCreds ∧
    boolCheckCredentials false Unverified.noCredentials = none ∧
    (∀ m : List (String × String),
      mapCheckCredentials m Unverified.noCredentials = none) ∧
    (∀ master : String,
      secretCheckCredentials master Unverified.noCredentials = none) :=
  ⟨rfl, rfl, fun _ => rfl, fun _ => rfl⟩

/-- Counterexample to claim C3: a successful 6-byte `PATCH` (`"hello\n"`)
responds `204` but with `Range: 0-6`, not `Range: 0-5` as claimed. -/
theorem claim_C3_range_counterexample :
    (uploadAddChunk ⟨"lib", "hello"⟩ "u-1" false [strBytes "hello\n"]).map
        uploadStateIntoResponse =
      Except.ok
        { status := 204,
          headers := [("Location", "/v2/lib/hello/uploads/u-1"),
                      ("Content-Length", "0"),
                      ("Docker-Upload-UUID", "u-1"),
                      ("Range", "0-6")],
          body := [] } ∧
    ("Range", "0-5") ∉
      [(("Location" : String), ("/v2/lib/hello/uploads/u-1" : String)),
       ("Content-Length", "0"), ("Docker-Upload-UUID", "u-1"),
       ("Range", "0-6")] := by
  exact ⟨rfl, by decide⟩

/-- Claim C3 as amended: every successful `PATCH` with an `n`-byte body
responds `204 No Content` with `Range: 0-{n}` (the code emits the byte
*count*, not the last byte index; a 6-byte body yields `Range: 0-6`). -/
theorem claim_C3_patch_response (loc : ImageLocation) (uuid : String)
    (chunks : List (List Nat)) :
    ∃ s, uploadAddChunk loc uuid false chunks = Except.ok s ∧
      (uploadStateIntoResponse s).status = 204 ∧
      ("Range", "0-" ++ toString (chunks.map List.length).sum) ∈
        (uploadStateIntoResponse s).headers := by
  refine ⟨⟨loc, some (chunks.map List.length).sum, uuid⟩, rfl, rfl, ?_⟩
  simp [uploadStateIntoResponse]

/-- Counterexample to claim C4: an endpoint guarded by the
`ValidCredentials` extractor answers a failing credential check with a bare
`401` carrying *no* `WWW-Authenticate` header (the claim asserts the
challenge header is present on every endpoint's `401`). -/
theorem claim_C4_challenge_counterexample :
    (handleWithAuth (boolCheckCredentials false) Unverified.noCredentials
        (fun _ => blobCheck (fun _ => Except.ok none) [])).status = 401 ∧
    hasHeader
        (handleWithAuth (boolCheckCredentials false) Unverified.noCredentials
          (fun _ => blobCheck (fun _ => Except.ok none) []))
        "WWW-Authenticate" = false :=
  ⟨rfl, rfl⟩

/-- Claim C4 as amended: a request whose credentials fail `check_credentials`
receives `401 Unauthorized`, but the `WWW-Authenticate: Basic
realm="<realm>"` challenge appears only on the `/v2/` index endpoint's
responses; endpoints guarded by the `ValidCredentials` extractor reject with
a bare `401` and no headers. -/
theorem claim_C4_unauthorized (check : Unverified → Option ValidCredentials)
    (unverified : Unverified) (handler : ValidCredentials → HttpResponse)
    (realm : String) (bcheck : Unverified → Bool) (c : Unverified)
    (h : check unverified = none) (hb : bcheck c = false) :
    handleWithAuth check unverified handler = statusResponse 401 ∧
    hasHeader (handleWithAuth check unverified handler)
      "WWW-Authenticate" = false ∧
    (indexV2 realm bcheck (some c)).status = 401 ∧
    wwwAuthHeader realm ∈ (indexV2 realm bcheck (some c)).headers := by
  have h1 : handleWithAuth check unverified handler = statusResponse 401 := by
    simp [handleWithAuth, validCredentialsFromRequestParts, h]
  refine ⟨h1, by rw [h1]; rfl, by simp [indexV2, hb], by simp [indexV2, hb]⟩

/-- Witness for C4: deny-all provider, no credentials supplied. -/
theorem claim_C4_unauthorized_witness :
    boolCheckCredentials false Unverified.noCredentials = none ∧
    ((fun _ => false : Unverified → Bool) Unverified.noCredentials = false) ∧
    handleWithAuth (boolCheckCredentials false) Unverified.noCredentials
        (fun _ => statusResponse 200) = statusResponse 401 :=
  ⟨rfl, rfl,
    (claim_C4_unauthorized (boolCheckCredentials false)
        Unverified.noCredentials (fun _ => statusResponse 200)
        "TODO REGISTRY" (fun _ => false) Unverified.noCredentials
        rfl rfl).1⟩

/-- Counterexample to claim C5: `GET` on an absent manifest reference does
*not* return `404` — the miss becomes `anyhow!("no such manifest")`, an
`AppError`, hence status `500`. -/
theorem claim_C5_manifest_counterexample :
    (manifestGet (fun _ => Except.ok none) (fun _ => none)
        ⟨⟨"lib", "hello"⟩, Reference.tag "prod"⟩).status = 500 ∧
    (manifestGet (fun _ => Except.ok none) (fun _ => none)
        ⟨⟨"lib", "hello"⟩, Reference.tag "prod"⟩).status ≠ 404 :=
  ⟨rfl, by decide⟩

/-- Claim C5 as amended: `HEAD` on an absent blob digest returns a bare
`404 Not Found`, but `GET` on an absent manifest reference surfaces the miss
as a `500` `AppError` with body `"no such manifest"`. -/
theorem claim_C5_lookup_miss
    (gbm : List Nat → Except String (Option Nat))
    (gm : ManifestReference → Except String (Option (List Nat)))
    (mt : List Nat → Option String)
    (digest : List Nat) (mref : ManifestReference)
    (hb : gbm digest = Except.ok none) (hm : gm mref = Except.ok none) :
    blobCheck gbm digest = { status := 404, headers := [], body := [] } ∧
    manifestGet gm mt mref = appErrorResponse "no such manifest" := by
  constructor
  · simp [blobCheck, hb]
  · simp [manifestGet, hm]

/-- Witness for C5: empty storage. -/
theorem claim_C5_lookup_miss_witness :
    blobCheck (fun _ => Except.ok none) [] =
      { status := 404, headers := [], body := [] } ∧
    manifestGet (fun _ => Except.ok none) (fun _ => none)
        ⟨⟨"lib", "hello"⟩, Reference.tag "latest"⟩ =
      appErrorResponse "no such manifest" :=
  claim_C5_lookup_miss (fun _ => Except.ok none) (fun _ => Except.ok none)
    (fun _ => none) [] ⟨⟨"lib", "hello"⟩, Reference.tag "latest"⟩ rfl rfl

/-- Counterexample to claim C6: the parser accepts a digest string whose hex
part is 64 *uppercase* `A`s, so "only 64 lowercase hex characters are
accepted" is false (the `hex` crate decodes both cases). -/
theorem claim_C6_uppercase_counterexample :
    imageDigestFromStr sampleUpperDigestStr =
      Except.ok (List.replicate 32 170) ∧
    sampleUpperDigestStr.length = 71 ∧
    ¬ (∀ b ∈ sampleUpperDigestStr.drop 7, isLowerHexByte b = true) :=
  ⟨rfl, by decide, by decide⟩

/-- Claim C6 as amended: the digest parser accepts a string iff it is
`"sha256:"` followed by exactly 64 hex digits of *either* case; it fails
with `WrongLength` when the byte length is not 71, with `WrongPrefix` when
the length is 71 but the prefix is not `"sha256:"`, and with
`HexDecodeError` when length and prefix are right but some remaining byte is
not a hex digit. -/
theorem claim_C6_digest_parse (raw : List Nat) :
    ((imageDigestFromStr raw).isOk = true ↔
      (raw.length = 71 ∧ sha256PrefixBytes.isPrefixOf raw = true ∧
        ∀ b ∈ raw.drop 7, isHexDigitByte b = true)) ∧
    (raw.length ≠ 71 →
      imageDigestFromStr raw =
        Except.error ImageDigestParseError.wrongLength) ∧
    (raw.length = 71 → sha256PrefixBytes.isPrefixOf raw = false →
      imageDigestFromStr raw =
        Except.error ImageDigestParseError.wrongPrefix) ∧
    (raw.length = 71 → sha256PrefixBytes.isPrefixOf raw = true →
      (¬ ∀ b ∈ raw.drop 7, isHexDigitByte b = true) →
      imageDigestFromStr raw =
        Except.error ImageDigestParseError.hexDecodeError) := by
  by_cases hlen : raw.length = 71
  · by_cases hpre : sha256PrefixBytes.isPrefixOf raw = true
    · have hdrop : (raw.drop 7).length % 2 = 0 := by
        rw [List.length_drop, hlen]
      have hx := hexDecode_isSome_iff (raw.drop 7) hdrop
      cases hdec : hexDecode (raw.drop 7) with
      | some d =>
          have hall : ∀ b ∈ raw.drop 7, isHexDigitByte b = true :=
            hx.1 (by simp [hdec])
          refine ⟨?_, ?_, ?_, ?_⟩
          · rw [show imageDigestFromStr raw = Except.ok d from by
              simp [imageDigestFromStr, hlen, hpre, hdec]]
            exact iff_of_true rfl ⟨hlen, hpre, hall⟩
          · intro h; exact absurd hlen h
          · intro _ h; rw [hpre] at h; cases h
          · intro _ _ hno; exact absurd hall hno
      | none =>
          have hnall : ¬ ∀ b ∈ raw.drop 7, isHexDigitByte b = true := by
            intro hall
            have := hx.2 hall
            rw [hdec] at this
            simp at this
          refine ⟨?_, ?_, ?_, ?_⟩
          · simp [imageDigestFromStr, Except.isOk, Except.toBool, hlen,
              hpre, hdec, hnall]
          · intro h; exact absurd hlen h
          · intro _ h; rw [hpre] at h; cases h
          · intro _ _ _; simp [imageDigestFromStr, hlen, hpre, hdec]
    · have hpre' : sha256PrefixBytes.isPrefixOf raw = false := by
        cases h : sha256PrefixBytes.isPrefixOf raw
        · rfl
        · exact absurd h hpre
      refine ⟨?_, ?_, ?_, ?_⟩
      · simp [imageDigestFromStr, Except.isOk, Except.toBool, hlen, hpre']
      · intro h; exact absurd hlen h
      · intro _ _; simp [imageDigestFromStr, hlen, hpre']
      · intro _ hc; rw [hpre'] at hc; cases hc
  · refine ⟨?_, ?_, ?_, ?_⟩
    · simp [imageDigestFromStr, Except.isOk, Except.toBool, hlen]
    · intro _; simp [imageDigestFromStr, hlen]
    · intro h; exact absurd h hlen
    · intro h; exact absurd h hlen

/-- Witness for C6: the empty string fails with `WrongLength`. -/
theorem claim_C6_digest_parse_witness :
    imageDigestFromStr [] = Except.error ImageDigestParseError.wrongLength :=
  (claim_C6_digest_parse []).2.1 (by decide)

/-- Counterexample to claim C7: for the non-empty path-safe location
`("a-b", "c")` the round trip fails — `rockslide-a-b-c` parses back to
`("a", "b-c")`, because the reverse mapping splits at the *first* dash. -/
theorem claim_C7_roundtrip_counterexample :
    parseContainerName (managedName ⟨"a-b", "c"⟩).data ≠
      some (⟨"a-b", "c"⟩ : ImageLocation) ∧
    parseContainerName (managedName ⟨"a-b", "c"⟩).data =
      some (⟨"a", "b-c"⟩ : ImageLocation) :=
  ⟨by decide, by decide⟩

/-- Claim C7 as amended: for every `ImageLocation` with non-empty components
whose *repository contains no `-`*, parsing the managed-container name
`rockslide-<repository>-<image>` yields the original location back. -/
theorem claim_C7_roundtrip (repo image : String)
    (h1 : repo ≠ "") (h2 : image ≠ "") (h3 : '-' ∉ repo.data) :
    parseContainerName (managedName ⟨repo, image⟩).data =
      some (⟨repo, image⟩ : ImageLocation) := by
  have hdata : (managedName ⟨repo, image⟩).data =
      "rockslide-".data ++ (repo.data ++ '-' :: image.data) := by
    show ("rockslide-" ++ repo ++ "-" ++ image).data = _
    simp [String.data_append]
  calc parseContainerName (managedName ⟨repo, image⟩).data
      = parseContainerName
          ("rockslide-".data ++ (repo.data ++ '-' :: image.data)) := by
        rw [hdata]
    _ = (match splitOnceChar '-' (repo.data ++ '-' :: image.data) with
          | some (left, right) => some ⟨String.mk left, String.mk right⟩
          | none => none) := by
        unfold parseContainerName
        rw [stripPrefixChars_of_append]
    _ = some ⟨String.mk repo.data, String.mk image.data⟩ := by
        rw [splitOnceChar_of_append '-' repo.data image.data h3]
    _ = some (⟨repo, image⟩ : ImageLocation) := by
        cases repo
        cases image
        rfl

/-- Witness for C7: the location `("lib", "hello")` round-trips. -/
theorem claim_C7_roundtrip_witness :
    parseContainerName (managedName ⟨"lib", "hello"⟩).data =
      some (⟨"lib", "hello"⟩ : ImageLocation) :=
  claim_C7_roundtrip "lib" "hello" (by decide) (by decide) (by decide)

/-- Claim C8: both versions of the manifest-upload hook always return
normally — every engine-step failure is logged and swallowed by
`try_quiet!`, never propagated — and a later invocation for an unrelated
manifest is unaffected: in a sequence where the first invocation may fail
arbitrarily, the second (for a `prod` upload against a healthy engine) still
executes its full reconcile sequence. -/
theorem claim_C8_hook_contains_errors :
    (∀ (ctx : HookCtx) (ok : EngineOp → Bool) (mref : ManifestReference),
      (mainOnManifestUploaded ctx ok mref).isOk = true) ∧
    (∀ (ctx : HookCtx) (ok : EngineOp → Bool) (mref : ManifestReference),
      (orchOnManifestUploaded ctx ok mref).isOk = true) ∧
    (∀ (ctx : HookCtx) (ok₁ : EngineOp → Bool) (m₁ : ManifestReference)
        (repo image : String),
      runHookSeq ctx
          [(ok₁, m₁), (engineAllOk, ⟨⟨repo, image⟩, Reference.tag "prod"⟩)] =
        [mainOnManifestUploaded ctx ok₁ m₁,
         Except.ok
           [EngineOp.rm (managedName ⟨repo, image⟩) true,
            EngineOp.login ctx.registryUsername ctx.registryPassword
              ctx.localAddr false,
            EngineOp.pull (prodImageUrl ctx ⟨repo, image⟩),
            EngineOp.run (prodImageUrl ctx ⟨repo, image⟩)
              (managedName ⟨repo, image⟩) "127.0.0.1::8000" false true true
              [("PORT", "8000")],
            EngineOp.ps false]]) := by
  refine ⟨mainHook_isOk, orchHook_isOk, ?_⟩
  intro ctx ok₁ m₁ repo image
  simp only [runHookSeq, List.map_cons, List.map_nil]
  rw [mainHook_prod_trace ctx repo image]

/-- Claim C9: when the `/v2/` capability ping is made with credentials that
pass `check_credentials`, the `200 OK` response carries the
`WWW-Authenticate: Basic realm="<realm>"` challenge header, just as the
`401` of the unauthenticated ping does. -/
theorem claim_C9_challenge_on_ok (realm : String) (check : Unverified → Bool)
    (creds : Unverified) (h : check creds = true) :
    (indexV2 realm check (some creds)).status = 200 ∧
    wwwAuthHeader realm ∈ (indexV2 realm check (some creds)).headers ∧
    (indexV2 realm check none).status = 401 ∧
    wwwAuthHeader realm ∈ (indexV2 realm check none).headers := by
  refine ⟨by simp [indexV2, h], by simp [indexV2, h], rfl, ?_⟩
  simp [indexV2]

/-- Witness for C9: allow-all check, concrete realm. -/
theorem claim_C9_challenge_on_ok_witness :
    ((fun _ => true : Unverified → Bool) Unverified.noCredentials = true) ∧
    (indexV2 "TODO REGISTRY" (fun _ => true)
        (some Unverified.noCredentials)).status = 200 :=
  ⟨rfl,
    (claim_C9_challenge_on_ok "TODO REGISTRY" (fun _ => true)
        Unverified.noCredentials rfl).1⟩

/-- Claim C10: the published-set computation considers only the first entry
of each container's port-mapping list, and a container whose selected
mapping's `host_ip` does not parse as an IPv4 address is silently dropped
from the set — the other containers are kept and no error is raised. -/
theorem claim_C10_published_set :
    (∀ (c : ContainerJson) (pm : PortMapping) (rest : List PortMapping),
      activePublishedPort { c with ports := pm :: rest } = some pm ∧
      publishedContainer { c with ports := pm :: rest } =
        publishedContainer { c with ports := [pm] }) ∧
    (∀ (pre post : List ContainerJson) (c : ContainerJson) (pm : PortMapping),
      activePublishedPort c = some pm → parseIpv4 pm.hostIp = none →
        publishedSet (pre ++ c :: post) =
          publishedSet pre ++ publishedSet post) := by
  constructor
  · intro c pm rest
    refine ⟨rfl, ?_⟩
    cases h : imageLocationOfNames c.names <;>
      simp [publishedContainer, h, activePublishedPort]
  · intro pre post c pm hact hip
    have hnone : publishedContainer c = none := by
      cases h : imageLocationOfNames c.names with
      | none => simp [publishedContainer, h]
      | some loc => simp [publishedContainer, h, hact, getHostListeningAddr, hip]
    unfold publishedSet
    rw [List.filterMap_append, List.filterMap_cons_none hnone]

/-- Witness for C10: a managed container published on the IPv6 host address
`::1` is dropped, leaving the published set empty. -/
theorem claim_C10_published_set_witness :
    publishedSet
        [{ id := "c1", names := ["rockslide-lib-hello"],
           ports := [{ hostIp := "::1", containerPort := 8000,
                       hostPort := 40000, range := 0, protocol := "tcp" }] }] =
      [] := by
  have h := claim_C10_published_set.2 [] []
    ⟨"c1", ["rockslide-lib-hello"],
      [⟨"::1", 8000, 40000, 0, "tcp"⟩]⟩
    ⟨"::1", 8000, 40000, 0, "tcp"⟩ rfl rfl
  simpa using h

end Rockslide
